import Mathlib

/-!
Verification of the routing and response-composition workflow of the
bookingAgent repository (src/agents/agents.py and the specialist modules
under src/agents/specialized_agents/).

The embedding is shallow: the LangGraph pipeline of agents.py is modelled
as explicit state passing over a `GraphState` record; outbound
language-model calls and calendar/network I/O are modelled by an oracle
record (`LLMOracle`) whose fields return `Except String String` — `.ok`
for a reply, `.error` for a raised exception.  Python code that has no
try/except around a call lets the `.error` value propagate, exactly as an
uncaught exception would; code wrapped in try/except maps the `.error`
case to the fixed fallback string that the except branch returns.
-/

namespace BookingAgentSpec

/-- The `AgentAction` string enum of agents.py (lines 12-16): its four
member values.  Note the third member is `DB_QUERY = "db_query"`. -/
def agentActionValues : List String :=
  ["policy_query", "booking", "db_query", "final_response"]

/-- The router `route_to_specialist` of agents.py (lines 110-120): compares
the raw action string of the state against the `AgentAction` members (a `str` enum,
so comparison is plain string equality) and falls through to
`"response_generator"` for anything unrecognized. -/
def route_to_specialist (action : String) : String :=
  if action = "policy_query" then "policy_agent"
  else if action = "booking" then "booking_agent"
  else if action = "db_query" then "products_agent"
  else "response_generator"

/-- The `context` dictionary of `GraphState`.  The three keys ever written
are the fixed constants `policy_info`, `booking_info`, `products_info`
(agents.py lines 60, 70, 78); each maps to the specialist payload, which
the router never inspects, so payloads are kept as opaque strings. -/
structure Context where
  policy_info : Option String
  booking_info : Option String
  products_info : Option String
deriving Repr, DecidableEq

/-- The empty context `{}` that `run_workflow` starts each request with. -/
def Context.empty : Context := ⟨none, none, none⟩

/-- Number of populated keys in a context. -/
def Context.populatedCount (c : Context) : Nat :=
  (if c.policy_info.isSome then 1 else 0) +
  (if c.booking_info.isSome then 1 else 0) +
  (if c.products_info.isSome then 1 else 0)

/-- The `GraphState` TypedDict of agents.py (lines 19-24). -/
structure GraphState where
  input : String
  action : String
  response : String
  context : Context
  final_response : String
deriving Repr, DecidableEq

/-- The external collaborators of the pipeline, as an oracle: each field is
one kind of outbound call, returning `.ok reply` on success or `.error e`
when the underlying call raises.

* `classifyReply`: the chat completion inside `primary_agent` (agents.py
  lines 44-49); `primary_agent` has no try/except, so `.error` propagates.
* `synthReply`: the chat completion inside `response_generator` (agents.py
  lines 102-107); also uncaught.
* `policyReply`: the body of `search_docs` (policy_agent.py lines 62-85)
  up to its try/except — the except branch maps any failure to the fixed
  string, so the policy specialist never raises into the workflow.
* `productReply`: the body of `search_products` (products_agent.py lines
  104-121) up to its try/except, likewise total at the workflow boundary.
* `bookingCall`: `book_appointment` (booking_agent.py lines 399-489); its
  `parse_user_intent` does `json.loads` of a model reply with no catch
  (lines 41-57), and neither the `booking_agent` node nor `run_workflow`
  catches, so `.error` here propagates out of the driver. -/
structure LLMOracle where
  classifyReply : String → Except String String
  synthReply : String → Except String String
  policyReply : String → Except String String
  productReply : String → Except String String
  bookingCall : String → Except String String

/-- Whitespace test used by Python `str.strip()`. -/
def isStripChar (c : Char) : Bool :=
  c = ' ' || c = '\t' || c = '\n' || c = '\r'

/-- Python `str.strip()`: drop leading and trailing whitespace. -/
def strip (s : String) : String :=
  String.mk (((s.toList.dropWhile isStripChar).reverse.dropWhile isStripChar).reverse)

/-- The prompt built by `primary_agent` (agents.py lines 33-42), with the
four enum values interpolated and the user input appended; its exact
wording is opaque to the oracle. -/
def classifierPrompt (input : String) : String :=
  "Given the user input, determine the most appropriate action: " ++
  "policy_query for shop sphere queries, booking for scheduling, " ++
  "db_query for product information, final_response for general queries. " ++
  "User Input: " ++ input ++
  " Respond with only one of the above action values."

/-- The classifier node `primary_agent` (agents.py lines 29-52): one model call, then
the raw trimmed reply text is assigned to the action field of the state —
stored with no validation against the enum.  The call is not wrapped in
try/except, so a failing call propagates. -/
def primary_agent (o : LLMOracle) (st : GraphState) : Except String GraphState :=
  match o.classifyReply (classifierPrompt st.input) with
  | .error e => .error e
  | .ok reply => .ok { st with action := strip reply }

/-- The policy specialist `search_docs` of policy_agent.py (lines 62-85) at the workflow
boundary: a successful run returns the generated answer; the surrounding
try/except maps any raised exception to the fixed fallback string. -/
def search_docs (o : LLMOracle) (user_input : String) : String :=
  match o.policyReply user_input with
  | .ok s => s
  | .error _ => "Error retrieving information from company policies."

/-- The product specialist `search_products` of products_agent.py (lines 104-121) at the workflow
boundary: total for the same reason as `search_docs`. -/
def search_products (o : LLMOracle) (user_input : String) : String :=
  match o.productReply user_input with
  | .ok s => s
  | .error _ => "Error retrieving product information."

/-- The booking specialist `book_appointment` of booking_agent.py (lines 399-489) as seen by the
workflow: no try/except anywhere on the path through `parse_user_intent`
(whose `json.loads` of the model reply raises on malformed output, lines
53-57), so the call either returns a payload dict or raises. -/
def book_appointment_call (o : LLMOracle) (user_input : String) : Except String String :=
  o.bookingCall user_input

/-- The `policy_agent` node (agents.py lines 54-62): calls `search_docs`
with the raw input text of the state and stores the payload unmodified under
`policy_info`. -/
def policy_agent_node (o : LLMOracle) (st : GraphState) : GraphState :=
  { st with context := { st.context with policy_info := some (search_docs o st.input) } }

/-- The `booking_agent` node (agents.py lines 64-71): calls
`book_appointment` with the raw input text of the state; a raised exception
propagates (no try/except), otherwise the payload is stored unmodified
under `booking_info`. -/
def booking_agent_node (o : LLMOracle) (st : GraphState) : Except String GraphState :=
  match book_appointment_call o st.input with
  | .error e => .error e
  | .ok payload => .ok { st with context := { st.context with booking_info := some payload } }

/-- The `products_agent` node (agents.py lines 73-79): calls
`search_products` with the raw input text of the state and stores the payload
unmodified under `products_info`. -/
def products_agent_node (o : LLMOracle) (st : GraphState) : GraphState :=
  { st with context := { st.context with products_info := some (search_products o st.input) } }

/-- Model of the json.dumps call on the context (agents.py line 86): serialize the
context dictionary.  Only the keys actually present are emitted, in
insertion order. -/
def contextJson (c : Context) : String :=
  let entry (k : String) : Option String → List String
    | some v => ["\x22" ++ k ++ "\x22: \x22" ++ v ++ "\x22"]
    | none => []
  "\x7b" ++ String.intercalate ", "
    (entry "policy_info" c.policy_info ++ entry "booking_info" c.booking_info ++
     entry "products_info" c.products_info) ++ "\x7d"

/-- The prompt built by `response_generator` (agents.py lines 88-100),
carrying the per-specialist hints, the user input, the serialized context
and the pipe-suffix output instruction. -/
def synthPrompt (input : String) (c : Context) : String :=
  "Generate a helpful and coherent response to the user query using the available context. " ++
  "User Input: " ++ input ++ " Context: " ++ contextJson c ++
  " add product ids at the end of the repsonse seperated by a pipe symbol like this: " ++
  "|product_id1,product_id2,product_id3 if the product ids are not present in the context, add |null"

/-- The synthesizer node `response_generator` (agents.py lines 81-108): one model call whose
trimmed reply becomes the final response field of the state verbatim — the pipe-suffix
format is requested in the prompt but never validated.  The call is not
wrapped in try/except, so a failing call propagates. -/
def response_generator (o : LLMOracle) (st : GraphState) : Except String GraphState :=
  match o.synthReply (synthPrompt st.input st.context) with
  | .error e => .error e
  | .ok reply => .ok { st with final_response := strip reply }

/-- The conditional-edge dispatch (agents.py lines 136-145): the name
returned by `route_to_specialist` selects the node run between
classification and synthesis; `"response_generator"` means no specialist
runs on this hop. -/
def specialize (o : LLMOracle) (st : GraphState) : Except String GraphState :=
  if route_to_specialist st.action = "policy_agent" then .ok (policy_agent_node o st)
  else if route_to_specialist st.action = "booking_agent" then booking_agent_node o st
  else if route_to_specialist st.action = "products_agent" then .ok (products_agent_node o st)
  else .ok st

/-- One traversal of the compiled graph (agents.py lines 122-154):
START → primary_agent → (conditional edge) → [specialist] →
response_generator → END.  Every specialist edge leads to
`response_generator`, which always runs exactly once. -/
def graphInvoke (o : LLMOracle) (st : GraphState) : Except String GraphState :=
  match primary_agent o st with
  | .error e => .error e
  | .ok st1 =>
    match specialize o st1 with
    | .error e => .error e
    | .ok st2 => response_generator o st2

/-- The fresh `inputs` dict built by `run_workflow` (agents.py lines
166-172) for each request. -/
def initialState (user_input : String) : GraphState :=
  { input := user_input, action := "", response := "", context := Context.empty,
    final_response := "" }

/-- The driver `run_workflow` (agents.py lines 162-175): build a fresh state, invoke
the graph, return `result["final_response"]`.  There is no try/except, so
any exception raised by a node propagates to the caller. -/
def run_workflow (o : LLMOracle) (user_input : String) : Except String String :=
  match graphInvoke o (initialState user_input) with
  | .error e => .error e
  | .ok st => .ok st.final_response

/-- Two consecutive invocations of the driver on the same input: each one
rebuilds the inputs dict from scratch (agents.py lines 166-172), and there
is no state shared across requests, so both components are invocations of
the same pure traversal. -/
def runWorkflowTwice (o : LLMOracle) (input : String) :
    Except String GraphState × Except String GraphState :=
  (graphInvoke o (initialState input), graphInvoke o (initialState input))

/-! ### Product catalog search (products_agent.py, `ProductSearchAgent.search_products`) -/

/-- A row of products.csv, with the five columns the search masks read
(`Category`, `Subcategory`, `ProductName`, `Brand`, `Description`) plus
the product identifier column. -/
structure ProductRow where
  productID : String
  category : String
  subcategory : String
  productName : String
  brand : String
  description : String
deriving Repr, DecidableEq

/-- Python `str.lower()`: lower-case each character. -/
def pyLower (s : String) : String := String.mk (s.toList.map Char.toLower)

/-- Whether `needle` is a leading segment of `hay` (on character lists). -/
def charListStartsWith : List Char → List Char → Bool
  | [], _ => true
  | _ :: _, [] => false
  | c :: cs, d :: ds => c = d && charListStartsWith cs ds

/-- Whether `needle` occurs as a contiguous substring of `hay`. -/
def charListContains (needle : List Char) : List Char → Bool
  | [] => charListStartsWith needle []
  | c :: t => charListStartsWith needle (c :: t) || charListContains needle t

/-- Substring containment on strings: models the pandas
`col.str.contains(query, na=False)` masks for plain-text queries (pandas
reads the query as a regex; for the row-count bound the matcher is
irrelevant). -/
def strContains (hay needle : String) : Bool :=
  charListContains needle.toList hay.toList

/-- The combined mask of products_agent.py lines 51-64: category,
subcategory, name, brand or description contains the lowered query. -/
def rowMask (q : String) (r : ProductRow) : Bool :=
  strContains (pyLower r.category) q || strContains (pyLower r.subcategory) q ||
  strContains (pyLower r.productName) q || strContains (pyLower r.brand) q ||
  strContains (pyLower r.description) q

/-- The per-word fallback mask of products_agent.py lines 74-79 — note it
omits the description column. -/
def wordMask (w : String) (r : ProductRow) : Bool :=
  strContains (pyLower r.category) w || strContains (pyLower r.subcategory) w ||
  strContains (pyLower r.productName) w || strContains (pyLower r.brand) w

/-- Python `str.split()`: split on whitespace runs, dropping empty
pieces.  The accumulator carries the current word reversed. -/
def wordsRec : List Char → List Char → List String
  | [], acc => if acc.isEmpty then [] else [String.mk acc.reverse]
  | c :: rest, acc =>
    if isStripChar c then
      (if acc.isEmpty then [] else [String.mk acc.reverse]) ++ wordsRec rest []
    else wordsRec rest (c :: acc)

/-- Python `str.split()` on a whole string. -/
def pySplit (s : String) : List String := wordsRec s.toList []

/-- The fallback loop of products_agent.py lines 70-82: try each query
word in order, keeping the first word whose mask matches anything; if no
word matches (or there are no words) the result is empty, as after the
Python loop. -/
def wordLoop (df : List ProductRow) : List String → List ProductRow
  | [] => []
  | w :: ws =>
    let results := df.filter (wordMask w)
    if results.length > 0 then results else wordLoop df ws

/-- The catalog search `ProductSearchAgent.search_products` (products_agent.py lines 45-84):
lower the query, filter by the combined mask, fall back to per-word
matching when nothing matched, and return `results.head(5)`. -/
def searchProductsRows (df : List ProductRow) (query : String) : List ProductRow :=
  let q := pyLower query
  let results := df.filter (rowMask q)
  let results := if results.length = 0 then wordLoop df (pySplit q) else results
  results.take 5

/-! ### FinalResponse suffix format (spec section 3) -/

/-- The text after the last `|` of `s`, or `none` when `s` has no `|`:
what a downstream consumer splitting on the last pipe would recover. -/
def lastPipeRhs (s : String) : Option String :=
  if s.toList.contains '|' then
    some (String.mk (s.toList.reverse.takeWhile (fun c => c ≠ '|')).reverse)
  else none

/-- Python `str.split(sep)` for a one-character separator: `""` splits to
`[""]`, so a trailing or doubled separator yields an empty token. -/
def splitCharRec (sep : Char) : List Char → List Char → List String
  | [], acc => [String.mk acc.reverse]
  | c :: rest, acc =>
    if c = sep then String.mk acc.reverse :: splitCharRec sep rest []
    else splitCharRec sep rest (c :: acc)

/-- Split a string on a one-character separator. -/
def splitChar (sep : Char) (s : String) : List String := splitCharRec sep s.toList []

/-- The FinalResponse suffix contract of spec section 3: after the last
`|` stands either the literal `null` or a comma-separated list of
non-empty tokens. -/
def suffixOk (s : String) : Bool :=
  match lastPipeRhs s with
  | none => false
  | some rhs => rhs == "null" || (splitChar ',' rhs).all (fun t => t != "")

/-! ### Booking slot search and meeting creation (booking_agent.py) -/

/-- A busy interval returned by the calendar freebusy query, in minutes
since midnight on the preferred date. -/
structure BusyInterval where
  start : Nat
  stop : Nat
deriving Repr, DecidableEq

/-- A free slot as built by `find_available_slots`, in minutes since
midnight. -/
structure Slot where
  start : Nat
  stop : Nat
deriving Repr, DecidableEq

/-- The overlap test of booking_agent.py line 256:
`(slot_start < busy_end) and (slot_end > busy_start)` for some busy
interval. -/
def slotIsBusy (slotStart slotEnd : Nat) (busy : List BusyInterval) : Bool :=
  busy.any (fun b => slotStart < b.stop && slotEnd > b.start)

/-- The while loop of `find_available_slots` (booking_agent.py lines
246-265): step `current_time` by 30 minutes while
`current_time + duration <= time_max`, keeping the non-busy slots.  With
`time_min` = 9:00 = 540 and `time_max` = 17:00 = 1020 the loop body runs
at most 17 times, so fuel 17 reproduces it exactly. -/
def slotsLoop : Nat → Nat → List BusyInterval → Nat → List Slot
  | 0, _, _, _ => []
  | fuel + 1, current, busy, dur =>
    if current + dur ≤ 1020 then
      (if slotIsBusy current (current + dur) busy then [] else [⟨current, current + dur⟩]) ++
        slotsLoop fuel (current + 30) busy dur
    else []

/-- The slot search `BookingAgent.find_available_slots` (booking_agent.py lines 223-272)
on the preferred date: scan 9:00-17:00 in 30-minute steps against the
calendar busy intervals. -/
def findAvailableSlots (busy : List BusyInterval) (durationMinutes : Nat) : List Slot :=
  slotsLoop 17 540 busy durationMinutes

/-- The meeting-details dict produced by `extract_meeting_details`
(booking_agent.py lines 59-94); `preferred_time` is in minutes since
midnight, `none` for JSON null. -/
structure MeetingDetails where
  title : String
  duration_minutes : Nat
  preferred_date : String
  preferred_time : Option Nat
  description : String
  participants : List String
deriving Repr, DecidableEq

/-- The event written by `BookingAgent.create_meeting` (booking_agent.py
lines 274-325) on the success path: start at the selected time, end at
start plus `duration_minutes`.  No comparison against busy intervals or
available slots happens here. -/
structure CreatedMeeting where
  start_time : Nat
  end_time : Nat
  meeting_title : String
  participants : List String
deriving Repr, DecidableEq

/-- The `create_meeting` success payload for the given selected time. -/
def create_meeting (details : MeetingDetails) (selectedTime : Nat) : CreatedMeeting :=
  { start_time := selectedTime
    end_time := selectedTime + details.duration_minutes
    meeting_title := details.title
    participants := details.participants }

/-- Outcome of the `book` branch of `book_appointment`. -/
inductive BookingOutcome where
  | slotSearchFailed
  | success (m : CreatedMeeting) (availableSlots : List Slot)
deriving Repr, DecidableEq

/-- The `book` branch of `book_appointment` (booking_agent.py lines
456-489): find available slots for the preferred date; error out when none
exist; otherwise select `preferred_time` when present (without checking it
against the computed slots) else the first free slot, and create the
meeting at the selected time. -/
def book_branch (details : MeetingDetails) (busy : List BusyInterval) : BookingOutcome :=
  let availableSlots := findAvailableSlots busy details.duration_minutes
  if availableSlots.isEmpty then .slotSearchFailed
  else
    let selectedTime :=
      match details.preferred_time with
      | some t => t
      | none => (availableSlots.head?.getD ⟨0, 0⟩).start
    .success (create_meeting details selectedTime) availableSlots

/-! ### Stub oracles and example data -/

/-- A deterministic stubbed model: every classification call answers
`classifyText`, every synthesis call answers `synthText`, and the three
specialist collaborators succeed with fixed payloads. -/
def stubOracle (classifyText synthText : String) : LLMOracle :=
  { classifyReply := fun _ => .ok classifyText
    synthReply := fun _ => .ok synthText
    policyReply := fun _ => .ok "policy answer"
    productReply := fun _ => .ok "product answer"
    bookingCall := fun _ => .ok "booking payload" }

/-- A model whose classification call raises (e.g. a transient network
error), while everything else would succeed. -/
def failingClassifierOracle : LLMOracle :=
  { stubOracle "final_response" "hi|null" with
    classifyReply := fun _ => .error "APIConnectionError" }

/-- A model whose classification call returns the given text; used to
probe `primary_agent` on arbitrary classifier outputs. -/
def constClassifierOracle (r : String) : LLMOracle :=
  { stubOracle "" "ok|null" with classifyReply := fun _ => .ok r }

/-- A small concrete catalog with more than five rows matching `phone`. -/
def demoCatalog : List ProductRow :=
  [⟨"P001", "Electronics", "Smartphones", "Phone A", "BrandX", "A phone"⟩,
   ⟨"P002", "Electronics", "Smartphones", "Phone B", "BrandX", "A phone"⟩,
   ⟨"P003", "Electronics", "Smartphones", "Phone C", "BrandY", "A phone"⟩,
   ⟨"P004", "Electronics", "Smartphones", "Phone D", "BrandY", "A phone"⟩,
   ⟨"P005", "Electronics", "Smartphones", "Phone E", "BrandZ", "A phone"⟩,
   ⟨"P006", "Electronics", "Smartphones", "Phone F", "BrandZ", "A phone"⟩]

/-- Extracted details of a booking request whose preferred time (10:30 =
minute 630) lies inside an existing busy interval. -/
def exampleDetails : MeetingDetails :=
  { title := "Team meeting"
    duration_minutes := 30
    preferred_date := "2026-10-13"
    preferred_time := some 630
    description := "sync"
    participants := ["a@b.com"] }

/-- One busy interval 10:00-11:00 (minutes 600-660) on the preferred
date. -/
def exampleBusy : List BusyInterval := [⟨600, 660⟩]

/-! ### The claims under test, stated as written -/

/-- Claim C1 as written: the router sends the workflow to a specialist iff
the classified action is one of `policy_query`, `booking`,
`product_query`, with `product_query` going to the product specialist. -/
def claimC1 : Prop :=
  (∀ a : String,
    route_to_specialist a ≠ "response_generator" ↔
      (a = "policy_query" ∨ a = "booking" ∨ a = "product_query"))
  ∧ route_to_specialist "policy_query" = "policy_agent"
  ∧ route_to_specialist "booking" = "booking_agent"
  ∧ route_to_specialist "product_query" = "products_agent"

/-- Claim C2 as written: `run_workflow` always returns a string — no
model, specialist or synthesis failure escapes the driver. -/
def claimC2 : Prop :=
  ∀ (o : LLMOracle) (input : String), ∃ s, run_workflow o input = .ok s

/-- Claim C3 as written: on a classifier reply whose trimmed text is not
one of the four enumerated labels, the classification stage sets the
action field to `final_response`. -/
def claimC3 : Prop :=
  ∀ (r : String) (st : GraphState), strip r ∉ agentActionValues →
    (primary_agent (constClassifierOracle r) st).map GraphState.action = .ok "final_response"

/-- Claim C4 as written: the action enumeration is exactly
`{policy_query, booking, product_query, final_response}`. -/
def claimC4 : Prop :=
  ∀ s : String,
    s ∈ agentActionValues ↔
      (s = "policy_query" ∨ s = "booking" ∨ s = "product_query" ∨ s = "final_response")

/-- Claim C5 as written: after specialization the context has at most one
populated key, and that key is tied to the routed action with
`products_info` belonging to action `product_query`. -/
def claimC5 : Prop :=
  ∀ (o : LLMOracle) (st st2 : GraphState), st.context = Context.empty →
    specialize o st = .ok st2 →
    st2.context.populatedCount ≤ 1
    ∧ (st2.context.policy_info.isSome → st.action = "policy_query")
    ∧ (st2.context.booking_info.isSome → st.action = "booking")
    ∧ (st2.context.products_info.isSome → st.action = "product_query")

/-- Claim C6 as written: every string returned by `run_workflow` satisfies
the pipe-suffix format (`null` or a comma-separated list of non-empty
tokens after the last `|`). -/
def claimC6 : Prop :=
  ∀ (o : LLMOracle) (input s : String), run_workflow o input = .ok s → suffixOk s = true

/-! ## Theorems

Shared helper lemmas first, then one main theorem per claim (with its
counterexample and witness where applicable). -/

theorem route_policy_query : route_to_specialist "policy_query" = "policy_agent" := rfl

theorem route_booking : route_to_specialist "booking" = "booking_agent" := rfl

theorem route_db_query : route_to_specialist "db_query" = "products_agent" := rfl

theorem route_default (a : String) (h1 : a ≠ "policy_query") (h2 : a ≠ "booking")
    (h3 : a ≠ "db_query") : route_to_specialist a = "response_generator" := by
  unfold route_to_specialist
  split_ifs <;> first | rfl | contradiction

theorem route_eq_policy_iff (a : String) :
    route_to_specialist a = "policy_agent" ↔ a = "policy_query" := by
  unfold route_to_specialist
  split_ifs with h1 h2 h3 <;> simp_all

theorem route_eq_booking_iff (a : String) :
    route_to_specialist a = "booking_agent" ↔ a = "booking" := by
  unfold route_to_specialist
  split_ifs with h1 h2 h3 <;> simp_all

theorem route_eq_products_iff (a : String) :
    route_to_specialist a = "products_agent" ↔ a = "db_query" := by
  unfold route_to_specialist
  split_ifs with h1 h2 h3 <;> simp_all

/-- The specialization hop succeeds as long as the booking collaborator
does (the policy and product nodes are total). -/
theorem specialize_ok_of_booking_ok (o : LLMOracle) (st : GraphState)
    (hb : ∀ t, ∃ b, o.bookingCall t = .ok b) : ∃ st2, specialize o st = .ok st2 := by
  unfold specialize
  split_ifs with h1 h2 h3
  · exact ⟨_, rfl⟩
  · obtain ⟨b, hbk⟩ := hb st.input
    exact ⟨{ st with context := { st.context with booking_info := some b } },
      by simp [booking_agent_node, book_appointment_call, hbk]⟩
  · exact ⟨_, rfl⟩
  · exact ⟨_, rfl⟩

/-- Inversion of a successful graph traversal: it decomposes into a
successful classification, a successful specialization hop and a
successful synthesis call whose trimmed reply is the final response. -/
theorem graphInvoke_ok_inv (o : LLMOracle) (st stF : GraphState)
    (h : graphInvoke o st = .ok stF) :
    ∃ st1 st2 r, primary_agent o st = .ok st1 ∧ specialize o st1 = .ok st2 ∧
      o.synthReply (synthPrompt st2.input st2.context) = .ok r ∧
      stF = { st2 with final_response := strip r } := by
  unfold graphInvoke at h
  split at h
  · exact absurd h (by simp)
  next st1 hpa =>
    split at h
    · exact absurd h (by simp)
    next st2 hsp =>
      unfold response_generator at h
      split at h
      · exact absurd h (by simp)
      next r hr =>
        injection h with h2
        exact ⟨st1, st2, r, hpa, hsp, hr, h2.symm⟩

/-- C1, counterexample: at the concrete action value `"product_query"` the
router goes straight to response synthesis (the code label for product
queries is `"db_query"`), so the routing relation claimed in the spec is
false on the code. -/
theorem c1_counterexample : ¬ claimC1 := by
  intro h
  exact absurd h.2.2.2 (by decide)

/-- C1, amended: the router sends the workflow to a specialist iff the
classified action is one of `policy_query`, `booking`, `db_query`
(`db_query` being the code label for product queries, routed to the
product specialist); any other value, including the label `product_query`
that the spec names, goes directly to response synthesis. -/
theorem c1_routing_iff :
    (∀ a : String,
      route_to_specialist a ≠ "response_generator" ↔
        (a = "policy_query" ∨ a = "booking" ∨ a = "db_query"))
    ∧ route_to_specialist "policy_query" = "policy_agent"
    ∧ route_to_specialist "booking" = "booking_agent"
    ∧ route_to_specialist "db_query" = "products_agent"
    ∧ route_to_specialist "product_query" = "response_generator" := by
  refine ⟨?_, rfl, rfl, rfl, rfl⟩
  intro a
  unfold route_to_specialist
  split_ifs with h1 h2 h3 <;> simp_all

/-- C2, counterexample: a failing classification call propagates out of
`run_workflow` as an unhandled fault, so the driver does not always
return a string. -/
theorem c2_counterexample : ¬ claimC2 := by
  intro h
  obtain ⟨s, hs⟩ := h failingClassifierOracle "hello"
  rw [show run_workflow failingClassifierOracle "hello" = .error "APIConnectionError"
    from rfl] at hs
  exact Except.noConfusion hs

/-- C2, amended: `run_workflow` returns a string whenever the
classification call, the booking collaborator and the synthesis call
succeed — with no assumption at all on the policy and product
collaborators, whose failures are recovered inside `search_docs` and
`search_products` so the workflow still proceeds to synthesis (graceful
degradation); but classification, booking-specialist or synthesis
failures escape the driver uncaught. -/
theorem c2_degradation (o : LLMOracle) (input : String)
    (hc : ∃ a, o.classifyReply (classifierPrompt input) = .ok a)
    (hb : ∀ t, ∃ b, o.bookingCall t = .ok b)
    (hs : ∀ p, ∃ s, o.synthReply p = .ok s) :
    ∃ r, run_workflow o input = .ok r := by
  obtain ⟨a, ha⟩ := hc
  have hpa : primary_agent o (initialState input) =
      .ok { initialState input with action := strip a } := by
    simp [primary_agent, initialState, ha]
  obtain ⟨st2, hsp⟩ := specialize_ok_of_booking_ok o
    { initialState input with action := strip a } hb
  obtain ⟨r, hr⟩ := hs (synthPrompt st2.input st2.context)
  refine ⟨strip r, ?_⟩
  unfold run_workflow graphInvoke response_generator
  simp only [hpa, hsp, hr]

/-- C2, witness: with an everywhere-succeeding stubbed model the driver
returns a string. -/
theorem c2_witness :
    (∃ a, (stubOracle "final_response" "hi|null").classifyReply (classifierPrompt "hi") = .ok a)
    ∧ ∃ r, run_workflow (stubOracle "final_response" "hi|null") "hi" = .ok r :=
  ⟨⟨"final_response", rfl⟩,
   c2_degradation (stubOracle "final_response" "hi|null") "hi"
     ⟨"final_response", rfl⟩ (fun _ => ⟨"booking payload", rfl⟩) (fun _ => ⟨"hi|null", rfl⟩)⟩

/-- C3, counterexample: on the unrecognized classifier reply `"banana"`
the classification stage stores the raw text in the action field, not
`final_response`. -/
theorem c3_counterexample : ¬ claimC3 := by
  intro h
  have h2 := h "banana" (initialState "x") (by decide)
  rw [show (primary_agent (constClassifierOracle "banana") (initialState "x")).map
        GraphState.action = .ok "banana" from rfl] at h2
  injection h2 with h3
  exact absurd h3 (by decide)

/-- C3, amended: `primary_agent` never raises on an unrecognized reply
and stores the trimmed text as-is in the action field; the router then
treats such an action exactly like `final_response` (straight to response
synthesis), but the field itself is not rewritten to `final_response`. -/
theorem c3_action_stored_raw (r : String) (st : GraphState)
    (h : strip r ∉ agentActionValues) :
    primary_agent (constClassifierOracle r) st = .ok { st with action := strip r }
    ∧ route_to_specialist (strip r) = "response_generator" := by
  refine ⟨by simp [primary_agent, constClassifierOracle, stubOracle], route_default _ ?_ ?_ ?_⟩
    <;> intro he <;> exact h (by simp [agentActionValues, he])

/-- C3, witness: the amended behavior at the concrete unrecognized reply
`"banana"`. -/
theorem c3_witness :
    strip "banana" ∉ agentActionValues
    ∧ (primary_agent (constClassifierOracle "banana") (initialState "hello") =
        .ok { initialState "hello" with action := strip "banana" }
      ∧ route_to_specialist (strip "banana") = "response_generator") :=
  ⟨by decide, c3_action_stored_raw "banana" (initialState "hello") (by decide)⟩

/-- C4, counterexample: `"db_query"` is a member of the action enumeration
of the code while the spec claims the third member is `"product_query"`,
so the claimed enumeration is false at `"db_query"`. -/
theorem c4_counterexample : ¬ claimC4 := by
  intro h
  exact absurd ((h "db_query").mp (by decide)) (by decide)

/-- C4, amended: the enumeration produced by the classifier prompt and
dispatched on by the router is exactly
`{policy_query, booking, db_query, final_response}`, and any value
outside it is treated as invalid — routed to the default
response-synthesis arm. -/
theorem c4_enum (s : String) :
    (s ∈ agentActionValues ↔
      (s = "policy_query" ∨ s = "booking" ∨ s = "db_query" ∨ s = "final_response"))
    ∧ (s ∉ agentActionValues → route_to_specialist s = "response_generator") := by
  constructor
  · simp [agentActionValues]
  · intro h
    refine route_default s ?_ ?_ ?_ <;> intro he <;> exact h (by simp [agentActionValues, he])

/-- C4, witness: the amended enumeration property at the concrete value
`"madeup"`. -/
theorem c4_witness :
    (("madeup" ∈ agentActionValues) ↔
      ("madeup" = "policy_query" ∨ "madeup" = "booking" ∨ "madeup" = "db_query" ∨
       "madeup" = "final_response"))
    ∧ (("madeup" ∉ agentActionValues) → route_to_specialist "madeup" = "response_generator") :=
  c4_enum "madeup"

/-- C5, counterexample: a request whose action is `"db_query"` populates
`products_info`, while the spec ties `products_info` to the action label
`product_query` — so the claimed key-to-action association is false. -/
theorem c5_counterexample : ¬ claimC5 := by
  intro h
  have h2 := h (stubOracle "" "ok|null") { initialState "x" with action := "db_query" }
    { initialState "x" with
      action := "db_query",
      context := { Context.empty with products_info := some "product answer" } } rfl rfl
  exact absurd (h2.2.2.2 (by decide)) (by decide)

/-- C5, amended: starting from an empty context, a successful
specialization hop populates at most one key; the populated key is the
fixed constant tied to the routed action with `products_info` tied to
`db_query` (the code label for product queries); the specialist is called
with the raw request text and its payload is stored unmodified. -/
theorem c5_context_invariant (o : LLMOracle) (st st2 : GraphState)
    (h0 : st.context = Context.empty) (h : specialize o st = .ok st2) :
    st2.context.populatedCount ≤ 1
    ∧ (st2.context.policy_info.isSome ↔ st.action = "policy_query")
    ∧ (st2.context.booking_info.isSome ↔ st.action = "booking")
    ∧ (st2.context.products_info.isSome ↔ st.action = "db_query")
    ∧ (st.action = "policy_query" → st2.context.policy_info = some (search_docs o st.input))
    ∧ (st.action = "db_query" → st2.context.products_info = some (search_products o st.input))
    ∧ (st.action = "booking" →
        ∃ b, book_appointment_call o st.input = .ok b ∧ st2.context.booking_info = some b) := by
  unfold specialize at h
  by_cases ha1 : st.action = "policy_query"
  · rw [if_pos ((route_eq_policy_iff st.action).mpr ha1)] at h
    simp only [Except.ok.injEq] at h
    subst h
    simp [policy_agent_node, Context.populatedCount, h0, Context.empty, ha1]
  · rw [if_neg (fun hc => ha1 ((route_eq_policy_iff st.action).mp hc))] at h
    by_cases ha2 : st.action = "booking"
    · rw [if_pos ((route_eq_booking_iff st.action).mpr ha2)] at h
      unfold booking_agent_node at h
      split at h
      · exact absurd h (by simp)
      next b hbk =>
        simp only [Except.ok.injEq] at h
        subst h
        simp [Context.populatedCount, h0, Context.empty, ha2, hbk, ha1]
    · rw [if_neg (fun hc => ha2 ((route_eq_booking_iff st.action).mp hc))] at h
      by_cases ha3 : st.action = "db_query"
      · rw [if_pos ((route_eq_products_iff st.action).mpr ha3)] at h
        simp only [Except.ok.injEq] at h
        subst h
        simp [products_agent_node, Context.populatedCount, h0, Context.empty, ha3, ha1, ha2]
      · rw [if_neg (fun hc => ha3 ((route_eq_products_iff st.action).mp hc))] at h
        simp only [Except.ok.injEq] at h
        subst h
        simp [Context.populatedCount, h0, Context.empty, ha1, ha2, ha3]

/-- C5, witness: the amended invariant at a concrete `db_query` request
against the stubbed model. -/
theorem c5_witness :
    ({ initialState "phones" with action := "db_query" } : GraphState).context = Context.empty
    ∧ specialize (stubOracle "" "ok|null") { initialState "phones" with action := "db_query" } =
        .ok { initialState "phones" with
              action := "db_query",
              context := { Context.empty with products_info := some "product answer" } }
    ∧ (({ initialState "phones" with
          action := "db_query",
          context := { Context.empty with
            products_info := some "product answer" } } : GraphState).context.populatedCount ≤ 1) :=
  ⟨rfl, rfl,
   (c5_context_invariant (stubOracle "" "ok|null")
     { initialState "phones" with action := "db_query" }
     { initialState "phones" with
       action := "db_query",
       context := { Context.empty with products_info := some "product answer" } }
     rfl rfl).1⟩

/-- C6, counterexample: the synthesizer model reply is stored verbatim, so
a reply without any pipe (here `"hello"`) becomes a FinalResponse that
violates the claimed suffix format. -/
theorem c6_counterexample : ¬ claimC6 := by
  intro h
  have h2 := h (stubOracle "final_response" "hello") "x" "hello" rfl
  exact absurd h2 (by decide)

/-- C6, amended: the FinalResponse is the trimmed synthesis reply
verbatim — the pipe-suffix format is requested in the prompt but never
validated or enforced, so the suffix property holds exactly when the
trimmed model reply happens to satisfy it. -/
theorem c6_final_response_verbatim (o : LLMOracle) (input s : String)
    (h : run_workflow o input = .ok s) :
    ∃ p r, o.synthReply p = .ok r ∧ s = strip r
      ∧ (suffixOk (strip r) = true ↔ suffixOk s = true) := by
  unfold run_workflow at h
  split at h
  · exact absurd h (by simp)
  next st hgi =>
    obtain ⟨st1, st2, r, hpa, hsp, hr, hF⟩ := graphInvoke_ok_inv o (initialState input) st hgi
    injection h with h2
    refine ⟨synthPrompt st2.input st2.context, r, hr, ?_, ?_⟩
    · rw [← h2, hF]
    · rw [← h2, hF]

/-- C6, witness: a compliant stubbed reply reaches the caller verbatim. -/
theorem c6_witness :
    run_workflow (stubOracle "final_response" "hi|null") "x" = .ok "hi|null"
    ∧ ∃ p r, (stubOracle "final_response" "hi|null").synthReply p = .ok r ∧ "hi|null" = strip r
        ∧ (suffixOk (strip r) = true ↔ suffixOk "hi|null" = true) :=
  ⟨rfl, c6_final_response_verbatim (stubOracle "final_response" "hi|null") "x" "hi|null" rfl⟩

/-- C7: `route_to_specialist` is a total function (by construction in this
embedding, matching the straight-line Python) whose value is always one of
the four routing decisions, and every action value outside the enumeration
maps to the default response-synthesis decision. -/
theorem c7_route_total (a : String) :
    (route_to_specialist a = "policy_agent" ∨ route_to_specialist a = "booking_agent" ∨
     route_to_specialist a = "products_agent" ∨ route_to_specialist a = "response_generator")
    ∧ (a ∉ agentActionValues → route_to_specialist a = "response_generator") := by
  constructor
  · unfold route_to_specialist
    split_ifs <;> simp
  · intro h
    refine route_default a ?_ ?_ ?_ <;> intro he <;> exact h (by simp [agentActionValues, he])

/-- C7, witness: the totality and default properties at the concrete
unrecognized value `"gibberish"`. -/
theorem c7_witness :
    ("gibberish" ∉ agentActionValues)
    ∧ ((route_to_specialist "gibberish" = "policy_agent" ∨
        route_to_specialist "gibberish" = "booking_agent" ∨
        route_to_specialist "gibberish" = "products_agent" ∨
        route_to_specialist "gibberish" = "response_generator")
      ∧ ("gibberish" ∉ agentActionValues →
          route_to_specialist "gibberish" = "response_generator")) :=
  ⟨by decide, c7_route_total "gibberish"⟩

/-- C8: the catalog search returns at most five rows for every catalog and
every query — the trailing `head(5)` bounds both the primary-mask result
and the per-word fallback result. -/
theorem c8_search_bounded (df : List ProductRow) (query : String) :
    (searchProductsRows df query).length ≤ 5 := by
  unfold searchProductsRows
  simp only [List.length_take]
  omega

/-- C8, witness: on a six-row catalog matching the query, at most five
rows come back. -/
theorem c8_witness :
    demoCatalog.length = 6 ∧ (searchProductsRows demoCatalog "phone").length ≤ 5 :=
  ⟨by decide, c8_search_bounded demoCatalog "phone"⟩

/-- C9: two invocations of the driver with identical input against the
same deterministic oracle produce the same action value and the same
context (hence the same specialist-key population): each invocation
rebuilds the initial state from the input alone and no state is shared
across requests. -/
theorem c9_idempotent_structure (o : LLMOracle) (input : String) :
    (runWorkflowTwice o input).1.map GraphState.action =
      (runWorkflowTwice o input).2.map GraphState.action
    ∧ (runWorkflowTwice o input).1.map GraphState.context =
      (runWorkflowTwice o input).2.map GraphState.context :=
  ⟨rfl, rfl⟩

/-- C9, witness: the structural idempotence at a concrete stubbed model
and input. -/
theorem c9_witness :
    (runWorkflowTwice (stubOracle "db_query" "ok|null") "phones").1.map GraphState.action =
      (runWorkflowTwice (stubOracle "db_query" "ok|null") "phones").2.map GraphState.action
    ∧ (runWorkflowTwice (stubOracle "db_query" "ok|null") "phones").1.map GraphState.context =
      (runWorkflowTwice (stubOracle "db_query" "ok|null") "phones").2.map GraphState.context :=
  c9_idempotent_structure (stubOracle "db_query" "ok|null") "phones"

/-- C10: in the `book` branch, whenever the extracted details carry a
non-null preferred time and the slot search finds any free slot, the
meeting is created exactly at the preferred time — the selected time is
never compared against the computed available slots. -/
theorem c10_preferred_time_unchecked (details : MeetingDetails) (busy : List BusyInterval)
    (t : Nat) (hp : details.preferred_time = some t)
    (hs : findAvailableSlots busy details.duration_minutes ≠ []) :
    book_branch details busy =
      .success (create_meeting details t) (findAvailableSlots busy details.duration_minutes) := by
  unfold book_branch
  simp only [hp]
  rw [if_neg (by simp [List.isEmpty_iff, hs])]

/-- C10, witness: with a 10:00-11:00 busy interval the day still has free
slots, so a request preferring 10:30 books a 10:30-11:00 meeting that
overlaps the busy interval — 10:30 is not among the free slot starts. -/
theorem c10_witness :
    exampleDetails.preferred_time = some 630
    ∧ findAvailableSlots exampleBusy exampleDetails.duration_minutes ≠ []
    ∧ book_branch exampleDetails exampleBusy =
        .success (create_meeting exampleDetails 630)
          (findAvailableSlots exampleBusy exampleDetails.duration_minutes)
    ∧ slotIsBusy 630 (630 + exampleDetails.duration_minutes) exampleBusy = true
    ∧ (findAvailableSlots exampleBusy exampleDetails.duration_minutes).all
        (fun s => decide (s.start ≠ 630)) = true :=
  ⟨rfl, by decide,
   c10_preferred_time_unchecked exampleDetails exampleBusy 630 rfl (by decide),
   by decide, by decide⟩

end BookingAgentSpec
